import Mathlib

/-!
Shallow embedding of `src/Apps/users/serializers.py` (Django REST framework
serializers for a user-management API): `UserSerializer` with its
`get_permissions`, `validate`, `create` and `update` methods, and
`ChangePasswordSerializer` with `validate_current_password` and `validate`.

Request payloads and validated attribute sets are modelled as association
lists from field names to values (Python `dict` semantics for `in`, `pop`,
indexing and assignment). External collaborators (the identity store's
`create_user` / `set_password` / `check_password`, the password-policy
checker `validate_password`, and the generic `super().update`) are passed
as explicit function parameters, as the spec treats them as external.
-/

/-- A field value in a request payload / validated attribute set. -/
inductive Val where
  | str : String → Val
  | usr : Nat → Val
  | bool : Bool → Val
deriving DecidableEq

/-- A validated-attribute / payload mapping: association list keyed by field name. -/
abbrev Attrs := List (String × Val)

/-- A field-scoped validation error (DRF `ValidationError({field: msg})`). -/
structure VErr where
  field : String
  msg : String
deriving DecidableEq

/-- Python `attrs[key]` / `attrs.get(key)`: first binding of `key`. -/
def lookupVal : Attrs → String → Option Val
  | [], _ => none
  | (k, v) :: rest, key => if k = key then some v else lookupVal rest key

/-- Python `key in attrs`. -/
def hasKey (a : Attrs) (k : String) : Bool :=
  (lookupVal a k).isSome

/-- Python `attrs.pop(key)` / `del attrs[key]`: remove the binding for `key`. -/
def eraseKey : Attrs → String → Attrs
  | [], _ => []
  | (k, v) :: rest, key =>
      if k = key then eraseKey rest key else (k, v) :: eraseKey rest key

/-- Python `attrs[key] = v`. -/
def setKey (a : Attrs) (k : String) (v : Val) : Attrs :=
  (k, v) :: eraseKey a k

/-- A role: carries a set of permissions, each an opaque code string
(`role.permissions.values_list('code', flat=True)`). -/
structure Role where
  permissions : List String
deriving DecidableEq

/-- A user-role assignment (`obj.user_roles`), active or not. -/
structure UserRole where
  is_active : Bool
  role : Role
deriving DecidableEq

/-- The slice of the user record that the serializer reads:
superuser flag, direct permission codenames
(`obj.user_permissions.values_list('codename', flat=True)`) and
role assignments. -/
structure UserRec where
  is_superuser : Bool
  user_permissions : List String
  user_roles : List UserRole
deriving DecidableEq

/-- Embeds `UserSerializer.get_permissions`: `['*']` for a superuser, else the set
union of direct permission codenames and the permission codes of every
active role assignment.  Python builds a `set` and returns `list(...)`,
i.e. a duplicate-free unordered collection, modelled as a `Finset`. -/
def UserSerializer.get_permissions (obj : UserRec) : Finset String :=
  if obj.is_superuser then {"*"}
  else
    (obj.user_roles.filter (fun ur => ur.is_active)).foldl
      (fun acc ur => acc ∪ ur.role.permissions.toFinset)
      obj.user_permissions.toFinset

/-- Embeds `UserSerializer.validate`: if both `password` and `password2` are present
and differ, raise `ValidationError({"password": ...})`; otherwise return
`attrs`. -/
def UserSerializer.validate (attrs : Attrs) : Except VErr Attrs :=
  if hasKey attrs "password" && hasKey attrs "password2" then
    if lookupVal attrs "password" ≠ lookupVal attrs "password2" then
      Except.error ⟨"password", "Password fields didn\x27t match."⟩
    else Except.ok attrs
  else Except.ok attrs

/-- Embeds `UserSerializer.create`: pops `password2` (Python `pop` without a default
raises `KeyError` when absent, modelled as `none`), stamps
`created_by = self.context['request'].user` (the `actor` parameter), and
delegates construction to `User.objects.create_user(**validated_data)`
(the `create_user` parameter), returning the new user. -/
def UserSerializer.create (create_user : Attrs → UserRec) (actor : Val)
    (validated_data : Attrs) : Option UserRec :=
  match lookupVal validated_data "password2" with
  | none => none
  | some _ =>
      let vd := eraseKey validated_data "password2"
      let vd := setKey vd "created_by" actor
      some (create_user vd)

/-- Embeds `UserSerializer.update`: if `password` is present, pop it and apply it via
`instance.set_password` (the `sp` parameter); if `password2` is present, pop
it; finally delegate to `super().update(instance, validated_data)` (the `su`
parameter). -/
def UserSerializer.update (sp : UserRec → Val → UserRec)
    (su : UserRec → Attrs → UserRec)
    (inst : UserRec) (validated_data : Attrs) : UserRec :=
  let step :=
    match lookupVal validated_data "password" with
    | some password => (sp inst password, eraseKey validated_data "password")
    | none => (inst, validated_data)
  let vd :=
    if hasKey step.2 "password2" then eraseKey step.2 "password2" else step.2
  su step.1 vd

/-- Modelled from the spec: "The new credential is also checked against an
external complexity policy before acceptance (delegated)" together with the
declared fields `password = CharField(write_only=True, required=True,
validators=[validate_password])` and `password2 = CharField(write_only=True,
required=True)`.  The framework runs the declared per-field checks (required
presence, then the attached policy validator on `password`) before the
object-level `validate`; the framework's own validation driver is not part
of `src/`. -/
def UserSerializer.run_validation (policy : Val → Bool) (attrs : Attrs) :
    Except VErr Attrs :=
  match lookupVal attrs "password" with
  | none => Except.error ⟨"password", "This field is required."⟩
  | some p =>
      match lookupVal attrs "password2" with
      | none => Except.error ⟨"password2", "This field is required."⟩
      | some _ =>
          if policy p then UserSerializer.validate attrs
          else Except.error ⟨"password", "This password does not satisfy the policy."⟩

/-- Embeds `ChangePasswordSerializer.validate_current_password`: if
`user.check_password(value)` (the `check_password` parameter, the identity
store's verification routine) is false, raise
`ValidationError("Current password is incorrect.")`; else return `value`. -/
def ChangePasswordSerializer.validate_current_password
    (check_password : String → Bool) (value : String) : Except String String :=
  if ¬ check_password value then Except.error "Current password is incorrect."
  else Except.ok value

/-- Modelled from the spec: the framework attaches the error a per-field
validator raises to that field ("else fails with a validation error on that
field"); the framework's field-dispatch code is not part of `src/`.
Runs `validate_current_password` and scopes its error to the field
`current_password`. -/
def ChangePasswordSerializer.run_validate_current_password
    (check_password : String → Bool) (value : String) : Except VErr String :=
  match ChangePasswordSerializer.validate_current_password check_password value with
  | Except.error m => Except.error ⟨"current_password", m⟩
  | Except.ok v => Except.ok v

/-- Embeds `ChangePasswordSerializer.validate`: compares `attrs['new_password']` with
`attrs['confirm_password']` by direct indexing.  A missing key makes the
indexing itself fail (Python `KeyError`), modelled as `none`; otherwise the
result is the field-level mismatch error or `attrs` unchanged. -/
def ChangePasswordSerializer.validate (attrs : Attrs) :
    Option (Except VErr Attrs) :=
  match lookupVal attrs "new_password", lookupVal attrs "confirm_password" with
  | some np, some cp =>
      if np ≠ cp then
        some (Except.error ⟨"confirm_password", "New password fields didn\x27t match."⟩)
      else some (Except.ok attrs)
  | _, _ => none

/-- A serializer field declaration: name and whether it is read-only
(read-only fields are output-only; write-only ones are still input). -/
structure FieldDecl where
  name : String
  read_only : Bool
deriving DecidableEq

/-- The field table of `UserSerializer.Meta.fields`, with each field's
read-only status as declared in the source: `id`, `date_joined`,
`last_login` are in `read_only_fields`; `two_factor_enabled`,
`backup_codes`, `created_by` are declared `read_only=True`; `permissions`
is a `SerializerMethodField` (always read-only); the rest are writable
(`password` and `password2` are `write_only`, i.e. input-only but
accepted). -/
def UserSerializer.fieldTable : List FieldDecl :=
  [⟨"id", true⟩, ⟨"email", false⟩, ⟨"username", false⟩,
   ⟨"password", false⟩, ⟨"password2", false⟩,
   ⟨"first_name", false⟩, ⟨"last_name", false⟩,
   ⟨"is_active", false⟩, ⟨"is_staff", false⟩, ⟨"is_superuser", false⟩,
   ⟨"date_joined", true⟩, ⟨"last_login", true⟩,
   ⟨"two_factor_enabled", true⟩, ⟨"backup_codes", true⟩,
   ⟨"created_by", true⟩, ⟨"permissions", true⟩]

/-- Modelled from the spec: "Fields `id`, `date_joined`, `last_login`,
`two_factor_enabled`, `backup_codes`, `created_by`, `permissions` are never
accepted as input — they are either system-derived or write-protected."
The framework's input deserialization (`to_internal_value`, not part of
`src/`) keeps only declared fields that are not read-only; the field table
itself is from the source. -/
def UserSerializer.to_internal_value (payload : Attrs) : Attrs :=
  payload.filter
    (fun p => UserSerializer.fieldTable.any (fun f => f.name == p.1 && ! f.read_only))

/- ### Association-list lemmas -/

theorem lookupVal_eraseKey_self (a : Attrs) (k : String) :
    lookupVal (eraseKey a k) k = none := by
  induction a with
  | nil => rfl
  | cons hd tl ih =>
    obtain ⟨k0, v0⟩ := hd
    by_cases h : k0 = k
    · simp [eraseKey, h, ih]
    · simp [eraseKey, lookupVal, h, ih]

theorem lookupVal_eraseKey_ne (a : Attrs) (k k' : String) (h : k' ≠ k) :
    lookupVal (eraseKey a k) k' = lookupVal a k' := by
  induction a with
  | nil => rfl
  | cons hd tl ih =>
    obtain ⟨k0, v0⟩ := hd
    by_cases h0 : k0 = k
    · subst h0
      have hne : k0 ≠ k' := fun hc => h hc.symm
      simp [eraseKey, lookupVal, hne, ih]
    · simp [eraseKey, lookupVal, h0, ih]

theorem eraseKey_of_hasKey_false (a : Attrs) (k : String)
    (h : hasKey a k = false) : eraseKey a k = a := by
  induction a with
  | nil => rfl
  | cons hd tl ih =>
    obtain ⟨k0, v0⟩ := hd
    by_cases h0 : k0 = k
    · exfalso
      simp [hasKey, lookupVal, h0] at h
    · simp [hasKey, lookupVal, h0] at h
      have h' : hasKey tl k = false := by simp [hasKey, h]
      simp [eraseKey, h0, ih h']

theorem lookupVal_setKey_self (a : Attrs) (k : String) (v : Val) :
    lookupVal (setKey a k v) k = some v := by
  simp [setKey, lookupVal]

theorem lookupVal_setKey_ne (a : Attrs) (k k' : String) (v : Val) (h : k' ≠ k) :
    lookupVal (setKey a k v) k' = lookupVal a k' := by
  have hne : k ≠ k' := fun hc => h hc.symm
  simp [setKey, lookupVal, hne, lookupVal_eraseKey_ne a k k' h]

theorem mem_foldl_union (l : List UserRole) (init : Finset String) (c : String) :
    (c ∈ l.foldl (fun acc ur => acc ∪ ur.role.permissions.toFinset) init) ↔
      c ∈ init ∨ ∃ ur ∈ l, c ∈ ur.role.permissions := by
  induction l generalizing init with
  | nil => simp
  | cons hd tl ih =>
    rw [List.foldl_cons, ih]
    simp [Finset.mem_union, List.mem_toFinset, or_assoc]

theorem lookupVal_filter_none (p : String × Val → Bool) (a : Attrs) (k : String)
    (h : ∀ v, p (k, v) = false) :
    lookupVal (a.filter p) k = none := by
  induction a with
  | nil => rfl
  | cons hd tl ih =>
    obtain ⟨k0, v0⟩ := hd
    by_cases hk : k0 = k
    · subst hk
      simp [List.filter_cons, h v0, ih]
    · cases hp : p (k0, v0) <;> simp [List.filter_cons, hp, lookupVal, hk, ih]

/- ### Claim theorems -/

/-- C1: if both `password` and `password2` are supplied and their values
differ, `UserSerializer.validate` fails with a field-level error naming
`password`; if the values are equal, or at most one of the two keys is
present, the cross-field check does not reject and returns the attributes. -/
theorem userSerializer_validate_matches_spec (attrs : Attrs) :
    (∀ a b, lookupVal attrs "password" = some a →
        lookupVal attrs "password2" = some b → a ≠ b →
        UserSerializer.validate attrs
          = Except.error ⟨"password", "Password fields didn\x27t match."⟩) ∧
    (∀ a b, lookupVal attrs "password" = some a →
        lookupVal attrs "password2" = some b → a = b →
        UserSerializer.validate attrs = Except.ok attrs) ∧
    ((hasKey attrs "password" = false ∨ hasKey attrs "password2" = false) →
        UserSerializer.validate attrs = Except.ok attrs) := by
  refine ⟨?_, ?_, ?_⟩
  · intro a b ha hb hne
    simp [UserSerializer.validate, hasKey, ha, hb, hne]
  · intro a b ha hb heq
    subst heq
    simp [UserSerializer.validate, hasKey, ha, hb]
  · intro h
    rcases h with h | h <;> simp [UserSerializer.validate, h]

/-- Witness for C1: mismatching password pair is rejected on field `password`. -/
theorem userSerializer_validate_matches_spec_witness :
    UserSerializer.validate [("password", Val.str "a"), ("password2", Val.str "b")]
      = Except.error ⟨"password", "Password fields didn\x27t match."⟩ :=
  (userSerializer_validate_matches_spec
      [("password", Val.str "a"), ("password2", Val.str "b")]).1
    (Val.str "a") (Val.str "b") rfl rfl (by decide)

/-- C2: for a non-superuser, `get_permissions` is exactly the duplicate-free
union of the direct permission codes and the codes of permissions attached
to active role assignments; inactive assignments contribute nothing. -/
theorem get_permissions_nonsuperuser_spec (obj : UserRec)
    (h : obj.is_superuser = false) (c : String) :
    (c ∈ UserSerializer.get_permissions obj) ↔
      c ∈ obj.user_permissions ∨
        ∃ ur ∈ obj.user_roles, ur.is_active = true ∧ c ∈ ur.role.permissions := by
  rw [UserSerializer.get_permissions]
  simp only [h, Bool.false_eq_true, if_false]
  rw [mem_foldl_union]
  simp only [List.mem_filter, List.mem_toFinset]
  constructor
  · rintro (hc | ⟨ur, ⟨hmem, hact⟩, hcp⟩)
    · exact Or.inl hc
    · exact Or.inr ⟨ur, hmem, hact, hcp⟩
  · rintro (hc | ⟨ur, hmem, hact, hcp⟩)
    · exact Or.inl hc
    · exact Or.inr ⟨ur, ⟨hmem, hact⟩, hcp⟩

/-- Witness for C2: holder of direct `view_x` and active role granting
`edit_y` has `edit_y` among the serialized permissions. -/
theorem get_permissions_nonsuperuser_spec_witness :
    "edit_y" ∈ UserSerializer.get_permissions
        ⟨false, ["view_x"], [⟨true, ⟨["edit_y"]⟩⟩]⟩ :=
  (get_permissions_nonsuperuser_spec
      ⟨false, ["view_x"], [⟨true, ⟨["edit_y"]⟩⟩]⟩ rfl "edit_y").mpr
    (Or.inr ⟨⟨true, ⟨["edit_y"]⟩⟩, by decide, rfl, by decide⟩)

/-- C3: a superuser always serializes with permissions `["*"]`, regardless
of direct grants or role assignments. -/
theorem get_permissions_superuser_wildcard (obj : UserRec)
    (h : obj.is_superuser = true) :
    UserSerializer.get_permissions obj = {"*"} := by
  simp [UserSerializer.get_permissions, h]

/-- Witness for C3: a superuser with direct and role grants still gets `["*"]`. -/
theorem get_permissions_superuser_wildcard_witness :
    UserSerializer.get_permissions ⟨true, ["view_x"], [⟨true, ⟨["edit_y"]⟩⟩]⟩
      = {"*"} :=
  get_permissions_superuser_wildcard ⟨true, ["view_x"], [⟨true, ⟨["edit_y"]⟩⟩]⟩ rfl

/-- C4: when `password` is present in the validated attributes, `update`
applies the generic update to the attribute set with `password` removed
(and `password2` discarded), the credential reaching the user only through
the dedicated `set_password` path; all other keys are passed through
unchanged to the generic partial update. -/
theorem update_never_writes_password_raw (sp : UserRec → Val → UserRec)
    (su : UserRec → Attrs → UserRec) (inst : UserRec) (vd : Attrs) (p : Val)
    (h : lookupVal vd "password" = some p) :
    UserSerializer.update sp su inst vd
        = su (sp inst p) (eraseKey (eraseKey vd "password") "password2") ∧
    lookupVal (eraseKey (eraseKey vd "password") "password2") "password" = none ∧
    lookupVal (eraseKey (eraseKey vd "password") "password2") "password2" = none ∧
    (∀ k, k ≠ "password" → k ≠ "password2" →
      lookupVal (eraseKey (eraseKey vd "password") "password2") k = lookupVal vd k) := by
  refine ⟨?_, ?_, ?_, ?_⟩
  · simp only [UserSerializer.update, h]
    by_cases h2 : hasKey (eraseKey vd "password") "password2" = true
    · simp [h2]
    · have h2f : hasKey (eraseKey vd "password") "password2" = false := by
        simpa using h2
      simp [h2f, eraseKey_of_hasKey_false _ _ h2f]
  · rw [lookupVal_eraseKey_ne _ _ _ (by decide), lookupVal_eraseKey_self]
  · exact lookupVal_eraseKey_self _ _
  · intro k hk1 hk2
    rw [lookupVal_eraseKey_ne _ _ _ hk2, lookupVal_eraseKey_ne _ _ _ hk1]

/-- Witness for C4: after an update carrying a password, the generic
attribute set holds no `password` key. -/
theorem update_never_writes_password_raw_witness :
    lookupVal (eraseKey (eraseKey
        [("password", Val.str "pw"), ("password2", Val.str "pw"),
         ("email", Val.str "e")] "password") "password2") "password" = none :=
  (update_never_writes_password_raw (fun u _ => u) (fun u _ => u)
      ⟨false, [], []⟩
      [("password", Val.str "pw"), ("password2", Val.str "pw"),
       ("email", Val.str "e")]
      (Val.str "pw") rfl).2.1

/-- C5: `create` drops `password2`, stamps `created_by` with the requesting
actor, hands the resulting attributes to the identity store's `create_user`,
and returns the user it constructs; every other attribute is passed through
unchanged. -/
theorem create_drops_password2_stamps_created_by
    (create_user : Attrs → UserRec) (actor : Val) (vd : Attrs) (v2 : Val)
    (h : lookupVal vd "password2" = some v2) :
    UserSerializer.create create_user actor vd
        = some (create_user (setKey (eraseKey vd "password2") "created_by" actor)) ∧
    lookupVal (setKey (eraseKey vd "password2") "created_by" actor) "password2" = none ∧
    lookupVal (setKey (eraseKey vd "password2") "created_by" actor) "created_by"
        = some actor ∧
    (∀ k, k ≠ "password2" → k ≠ "created_by" →
      lookupVal (setKey (eraseKey vd "password2") "created_by" actor) k
        = lookupVal vd k) := by
  refine ⟨?_, ?_, ?_, ?_⟩
  · simp [UserSerializer.create, h]
  · rw [lookupVal_setKey_ne _ _ _ _ (by decide), lookupVal_eraseKey_self]
  · exact lookupVal_setKey_self _ _ _
  · intro k hk1 hk2
    rw [lookupVal_setKey_ne _ _ _ _ hk2, lookupVal_eraseKey_ne _ _ _ hk1]

/-- Witness for C5: the attributes handed to `create_user` carry
`created_by = actor`. -/
theorem create_drops_password2_stamps_created_by_witness :
    lookupVal (setKey (eraseKey
        [("password2", Val.str "pw"), ("email", Val.str "e")] "password2")
        "created_by" (Val.usr 7)) "created_by" = some (Val.usr 7) :=
  (create_drops_password2_stamps_created_by (fun _ => ⟨false, [], []⟩)
      (Val.usr 7) [("password2", Val.str "pw"), ("email", Val.str "e")]
      (Val.str "pw") rfl).2.2.1

/-- C6: when `password` equals `password2` and the password satisfies the
external policy checker, serializer validation succeeds and returns the
attributes. -/
theorem run_validation_ok_of_match_and_policy (policy : Val → Bool)
    (attrs : Attrs) (p : Val)
    (h1 : lookupVal attrs "password" = some p)
    (h2 : lookupVal attrs "password2" = some p)
    (hp : policy p = true) :
    UserSerializer.run_validation policy attrs = Except.ok attrs := by
  simp [UserSerializer.run_validation, h1, h2, hp, UserSerializer.validate, hasKey]

/-- Witness for C6: matching passwords under an accepting policy validate. -/
theorem run_validation_ok_of_match_and_policy_witness :
    UserSerializer.run_validation (fun _ => true)
        [("password", Val.str "pw"), ("password2", Val.str "pw")]
      = Except.ok [("password", Val.str "pw"), ("password2", Val.str "pw")] :=
  run_validation_ok_of_match_and_policy (fun _ => true) _ (Val.str "pw") rfl rfl rfl

/-- C7: when the supplied current password fails the identity store's
`check_password`, validation fails on field `current_password` with exactly
"Current password is incorrect."; when it matches, the value is returned
unchanged. -/
theorem validate_current_password_spec (check_password : String → Bool)
    (v : String) :
    (check_password v = false →
      ChangePasswordSerializer.run_validate_current_password check_password v
        = Except.error ⟨"current_password", "Current password is incorrect."⟩) ∧
    (check_password v = true →
      ChangePasswordSerializer.run_validate_current_password check_password v
        = Except.ok v) := by
  constructor
  · intro h
    simp [ChangePasswordSerializer.run_validate_current_password,
      ChangePasswordSerializer.validate_current_password, h]
  · intro h
    simp [ChangePasswordSerializer.run_validate_current_password,
      ChangePasswordSerializer.validate_current_password, h]

/-- Witness for C7: a rejected current password yields the exact
field-scoped error. -/
theorem validate_current_password_spec_witness :
    ChangePasswordSerializer.run_validate_current_password (fun _ => false) "x"
      = Except.error ⟨"current_password", "Current password is incorrect."⟩ :=
  (validate_current_password_spec (fun _ => false) "x").1 rfl

/-- C8: when `new_password` and `confirm_password` are both present and
differ, `ChangePasswordSerializer.validate` fails on field
`confirm_password` with exactly "New password fields didn't match."; when
they are equal it returns the attributes unchanged. -/
theorem changePassword_validate_mismatch_spec (attrs : Attrs) (np cp : Val)
    (h1 : lookupVal attrs "new_password" = some np)
    (h2 : lookupVal attrs "confirm_password" = some cp) :
    (np ≠ cp →
      ChangePasswordSerializer.validate attrs
        = some (Except.error
            ⟨"confirm_password", "New password fields didn\x27t match."⟩)) ∧
    (np = cp →
      ChangePasswordSerializer.validate attrs = some (Except.ok attrs)) := by
  constructor
  · intro hne
    simp [ChangePasswordSerializer.validate, h1, h2, hne]
  · intro heq
    subst heq
    simp [ChangePasswordSerializer.validate, h1, h2]

/-- Witness for C8: a mismatching pair is rejected on `confirm_password`. -/
theorem changePassword_validate_mismatch_spec_witness :
    ChangePasswordSerializer.validate
        [("new_password", Val.str "a"), ("confirm_password", Val.str "b")]
      = some (Except.error
          ⟨"confirm_password", "New password fields didn\x27t match."⟩) :=
  (changePassword_validate_mismatch_spec
      [("new_password", Val.str "a"), ("confirm_password", Val.str "b")]
      (Val.str "a") (Val.str "b") rfl rfl).1 (by decide)

/-- C9: the validated input never contains any of the seven read-only
fields, whatever the payload supplies: they are filtered out before
`create`/`update` see the attributes. -/
theorem read_only_fields_never_in_validated_input (payload : Attrs) :
    hasKey (UserSerializer.to_internal_value payload) "id" = false ∧
    hasKey (UserSerializer.to_internal_value payload) "date_joined" = false ∧
    hasKey (UserSerializer.to_internal_value payload) "last_login" = false ∧
    hasKey (UserSerializer.to_internal_value payload) "two_factor_enabled" = false ∧
    hasKey (UserSerializer.to_internal_value payload) "backup_codes" = false ∧
    hasKey (UserSerializer.to_internal_value payload) "created_by" = false ∧
    hasKey (UserSerializer.to_internal_value payload) "permissions" = false := by
  have hf : ∀ k : String,
      (∀ v, (fun p : String × Val =>
          UserSerializer.fieldTable.any (fun f => f.name == p.1 && ! f.read_only))
        (k, v) = false) →
      hasKey (UserSerializer.to_internal_value payload) k = false := by
    intro k hk
    have hnone := lookupVal_filter_none
      (fun p : String × Val =>
        UserSerializer.fieldTable.any (fun f => f.name == p.1 && ! f.read_only))
      payload k hk
    simp [hasKey, UserSerializer.to_internal_value, hnone]
  exact ⟨hf "id" (fun v => rfl), hf "date_joined" (fun v => rfl),
    hf "last_login" (fun v => rfl), hf "two_factor_enabled" (fun v => rfl),
    hf "backup_codes" (fun v => rfl), hf "created_by" (fun v => rfl),
    hf "permissions" (fun v => rfl)⟩

/-- C10: with both `new_password` and `confirm_password` present the
unguarded indexing in `ChangePasswordSerializer.validate` cannot fail and
the result is either the mismatch error or the unchanged attributes; with
either key missing the lookup itself fails (KeyError) instead of a
field-level validation error. -/
theorem changePassword_validate_presence_spec (attrs : Attrs) :
    ((hasKey attrs "new_password" = true ∧ hasKey attrs "confirm_password" = true) →
      ∃ r, ChangePasswordSerializer.validate attrs = some r ∧
        (r = Except.error
            ⟨"confirm_password", "New password fields didn\x27t match."⟩ ∨
         r = Except.ok attrs)) ∧
    ((hasKey attrs "new_password" = false ∨ hasKey attrs "confirm_password" = false) →
      ChangePasswordSerializer.validate attrs = none) := by
  constructor
  · rintro ⟨h1, h2⟩
    rcases Option.isSome_iff_exists.mp h1 with ⟨np, hnp⟩
    rcases Option.isSome_iff_exists.mp h2 with ⟨cp, hcp⟩
    by_cases hne : np = cp
    · subst hne
      exact ⟨Except.ok attrs,
        by simp [ChangePasswordSerializer.validate, hnp, hcp], Or.inr rfl⟩
    · exact ⟨Except.error
          ⟨"confirm_password", "New password fields didn\x27t match."⟩,
        by simp [ChangePasswordSerializer.validate, hnp, hcp, hne], Or.inl rfl⟩
  · intro h
    cases hn : lookupVal attrs "new_password" with
    | none => simp [ChangePasswordSerializer.validate, hn]
    | some np =>
      cases hc : lookupVal attrs "confirm_password" with
      | none => simp [ChangePasswordSerializer.validate, hn, hc]
      | some cp =>
        exfalso
        rcases h with h | h <;> simp [hasKey, hn, hc] at h

/-- Witness for C10: on an empty attribute set the lookup itself fails. -/
theorem changePassword_validate_presence_spec_witness :
    ChangePasswordSerializer.validate [] = none :=
  (changePassword_validate_presence_spec []).2 (Or.inl rfl)
